import Mathlib

/-!
Shallow embedding of the `excel-mcp` server's URL-processing orchestration
(`src/excel_mcp/server.py`) and file-transfer client (`src/excel_mcp/workbook.py`).

External collaborators (the HTTP library, `json.loads`, the per-operation
spreadsheet implementations, `uuid`, `tempfile`) are modelled as parameters of
an `Env` record; the code under verification (path resolution, the five tool
wrappers' error handling, upload/download wrapping, and the orchestrator's
download → copy → normalize → dispatch → upload → cleanup pipeline) is
translated line by line.  The filesystem is a set of existing paths, and the
orchestration additionally emits a trace of observable events (download, copy,
operation invocation, HTTP post, file removal) so that claims about which
effects occur can be stated.
-/

namespace ExcelMCP

/-- JSON-like values, the payloads of `operation_params`. -/
inductive Value where
  | str (s : String)
  | num (n : Int)
  | bool (b : Bool)
  | null
  | arr (xs : List Value)
  | obj (fields : List (String × Value))

/-- A Python dict of keyword parameters: an association list (insertion order kept). -/
abbrev Params := List (String × Value)

/-- The exception classes that appear in the modelled code paths
(`excel_mcp.exceptions` plus Python builtins). -/
inductive ExcKind where
  | validationError
  | workbookError
  | sheetError
  | dataError
  | formattingError
  | calculationError
  | pivotError
  | chartError
  | valueError
  | attributeError
  | osError
deriving DecidableEq, Repr

/-- A raised Python exception: its class, its `str()` message, and its
explicit `__cause__` (set only by `raise ... from e`, which this code never
uses — every `raise X(msg)` in the source leaves the structured cause empty). -/
structure Exc where
  kind : ExcKind
  msg : String
  cause : Option (ExcKind × String)
deriving DecidableEq, Repr

/-- The filesystem, as the set (list) of paths that currently exist. -/
abbrev FS := List String

def fsExists (fs : FS) (p : String) : Bool := fs.contains p

def fsCreate (fs : FS) (p : String) : FS := if fs.contains p then fs else p :: fs

def fsRemove (fs : FS) (p : String) : FS := fs.filter (fun q => q != p)

/-- Characters of `l` after its last `'/'` (all of `l` if no slash). -/
def afterLastSlash (l : List Char) : List Char :=
  l.foldl (fun acc c => if c = '/' then [] else acc ++ [c]) []

/-- `os.path.isabs` on POSIX: the path starts with a slash. -/
def osPathIsAbs (p : String) : Bool := "/".toList.isPrefixOf p.toList

/-- Does `s` end with `suf`? -/
def strEndsWith (s suf : String) : Bool := suf.toList.isSuffixOf s.toList

/-- `os.path.join a b` on POSIX (two arguments, as used by the source). -/
def osPathJoin (a b : String) : String :=
  if osPathIsAbs b then b
  else if a == "" || strEndsWith a "/" then a ++ b
  else a ++ "/" ++ b

/-- `os.path.basename` on POSIX: the part after the last slash. -/
def osPathBasename (p : String) : String := String.mk (afterLastSlash p.toList)

/-- `url.split('/')[-1]`: the final slash-separated segment. -/
def urlLastSegment (url : String) : String := String.mk (afterLastSlash url.toList)

/-- Does `pat` occur as a contiguous run inside `l`? -/
def listInfix (pat : List Char) : List Char → Bool
  | [] => pat.isEmpty
  | x :: xs => pat.isPrefixOf (x :: xs) || listInfix pat xs

/-- Decidable substring test. -/
def strContains (s pat : String) : Bool := listInfix pat.toList s.toList

/-- The record returned by `upload_file_to_server` on success. -/
structure UploadResult where
  message : String
  file_url : String
  filename : String
deriving DecidableEq, Repr

/-- Observable external effects of a run, in order of occurrence. -/
inductive Event where
  | download (url : String) (dest : String)
  | copyFile (src : String) (dst : String)
  | invoke (op : String) (path : String) (kwargs : Params)
  | httpPost (endpoint : String) (filename : String)
  | removeFile (path : String)

/-- Is the event an operation invocation (a call to one of the five tools)? -/
def Event.isInvoke : Event → Bool
  | .invoke _ _ _ => true
  | _ => false

/-- Is the event an HTTP post (the upload step's network request)? -/
def Event.isUpload : Event → Bool
  | .httpPost _ _ => true
  | _ => false

/-- The external collaborators of the modelled code, fixed per run:
configuration read at import time (`EXCEL_FILES_PATH`, `tempfile.gettempdir()`,
`uuid.uuid4()`), `json.loads`, the network outcomes of `requests.get` /
`requests.post`, `shutil.copy2`'s outcome, and the spreadsheet-library entry
points called by the five tool wrappers. -/
structure Env where
  /-- `EXCEL_FILES_PATH` (env var, default `./excel_files`). -/
  excelFilesPath : String
  /-- `tempfile.gettempdir()`. -/
  tempDir : String
  /-- `uuid.uuid4()`, rendered as a string. -/
  uuid : String
  /-- `json.loads`: `none` models `json.JSONDecodeError`. -/
  jsonLoads : String → Option Value
  /-- Outcome of `requests.get(url)` + `raise_for_status()` inside
  `download_file_from_url`: `ok` downloads the body, `error d` is the
  exception detail `str(e)`. -/
  download : Except String Unit
  /-- Whether `shutil.copy2` succeeds. -/
  copyOk : Bool
  /-- `str(e)` of the `OSError` raised by `shutil.copy2` when it fails. -/
  copyErrMsg : String
  /-- `validate_formula_in_cell_operation`: `.ok (some err)` models a returned
  dict containing an `"error"` key, `.ok none` a validation pass. -/
  validateFormulaImpl : String → Params → Except Exc (Option String)
  /-- `excel_mcp.calculations.apply_formula` (its `result["message"]`). -/
  applyFormulaImpl : String → Params → Except Exc String
  /-- `excel_mcp.formatting.format_range`. -/
  formatRangeImpl : String → Params → Except Exc Unit
  /-- `excel_mcp.data.write_data` (its `result["message"]`). -/
  writeDataImpl : String → Params → Except Exc String
  /-- `create_chart_in_sheet` (its `result["message"]`). -/
  createChartImpl : String → Params → Except Exc String
  /-- `excel_mcp.pivot.create_pivot_table` (its `result["message"]`). -/
  createPivotImpl : String → Params → Except Exc String
  /-- `requests.post(UPLOAD_ENDPOINT, files=...).status_code`. -/
  uploadStatus : Nat
  /-- `response.text` of that post. -/
  uploadText : String

/-- `get_excel_path` (server.py:71–85): absolute filenames are returned
unchanged, relative ones are joined under the configured working directory. -/
def get_excel_path (excelFilesPath : String) (filename : String) : String :=
  if osPathIsAbs filename then filename
  else osPathJoin excelFilesPath filename

/-- Tool wrapper `apply_formula` (server.py:87–110): resolve the path,
validate (an `"error"` entry in the validation dict is returned as an
`"Error: ..."` string), then apply; `ValidationError` and `CalculationError`
are caught and stringified, every other exception is re-raised unchanged. -/
def apply_formula (env : Env) (filepath : String) (kwargs : Params) :
    Except Exc String :=
  let full_path := get_excel_path env.excelFilesPath filepath
  match env.validateFormulaImpl full_path kwargs with
  | .error e =>
      if e.kind = .validationError ∨ e.kind = .calculationError then
        .ok ("Error: " ++ e.msg)
      else .error e
  | .ok (some verr) => .ok ("Error: " ++ verr)
  | .ok none =>
      match env.applyFormulaImpl full_path kwargs with
      | .ok m => .ok m
      | .error e =>
          if e.kind = .validationError ∨ e.kind = .calculationError then
            .ok ("Error: " ++ e.msg)
          else .error e

/-- Tool wrapper `format_range` (server.py:130–181): on success the wrapper
discards the library result and returns a fixed message; `ValidationError`
and `FormattingError` are caught and stringified, others re-raised. -/
def format_range (env : Env) (filepath : String) (kwargs : Params) :
    Except Exc String :=
  let full_path := get_excel_path env.excelFilesPath filepath
  match env.formatRangeImpl full_path kwargs with
  | .ok _ => .ok "Range formatted successfully"
  | .error e =>
      if e.kind = .validationError ∨ e.kind = .formattingError then
        .ok ("Error: " ++ e.msg)
      else .error e

/-- Tool wrapper `write_data_to_excel` (server.py:205–222): returns the
library's message; `ValidationError` and `DataError` are caught and
stringified, others re-raised. -/
def write_data_to_excel (env : Env) (filepath : String) (kwargs : Params) :
    Except Exc String :=
  let full_path := get_excel_path env.excelFilesPath filepath
  match env.writeDataImpl full_path kwargs with
  | .ok m => .ok m
  | .error e =>
      if e.kind = .validationError ∨ e.kind = .dataError then
        .ok ("Error: " ++ e.msg)
      else .error e

/-- Tool wrapper `create_chart` (server.py:256–285): returns the library's
message; `ValidationError` and `ChartError` are caught and stringified,
others re-raised. -/
def create_chart (env : Env) (filepath : String) (kwargs : Params) :
    Except Exc String :=
  let full_path := get_excel_path env.excelFilesPath filepath
  match env.createChartImpl full_path kwargs with
  | .ok m => .ok m
  | .error e =>
      if e.kind = .validationError ∨ e.kind = .chartError then
        .ok ("Error: " ++ e.msg)
      else .error e

/-- Tool wrapper `create_pivot_table` (server.py:287–314): returns the
library's message; `ValidationError` and `PivotError` are caught and
stringified, others re-raised. -/
def create_pivot_table (env : Env) (filepath : String) (kwargs : Params) :
    Except Exc String :=
  let full_path := get_excel_path env.excelFilesPath filepath
  match env.createPivotImpl full_path kwargs with
  | .ok m => .ok m
  | .error e =>
      if e.kind = .validationError ∨ e.kind = .pivotError then
        .ok ("Error: " ++ e.msg)
      else .error e

/-- `FILE_SERVER_URL` (workbook.py:15). -/
def FILE_SERVER_URL : String := "http://localhost:3001"

/-- `UPLOAD_ENDPOINT` (workbook.py:16). -/
def UPLOAD_ENDPOINT : String := FILE_SERVER_URL ++ "/upload"

/-- `FILE_ACCESS_BASE_URL` (workbook.py:18). -/
def FILE_ACCESS_BASE_URL : String := FILE_SERVER_URL ++ "/files/"

/-- `upload_file_to_server` (workbook.py:20–52).  The existence check comes
first; only then is the HTTP post performed.  Both the `WorkbookError`s
raised inside the `try` block are caught by the function's own
`except Exception` clause and re-wrapped with a second
`"Failed to upload file: "` layer (`str(e)` of a `WorkbookError` is its
message), so the raised messages are doubled up exactly as modelled here. -/
def upload_file_to_server (env : Env) (fs : FS) (filepath : String) :
    Except Exc UploadResult × List Event :=
  if fsExists fs filepath then
    let filename := osPathBasename filepath
    if env.uploadStatus = 200 then
      (.ok { message := "File uploaded successfully"
           , file_url := FILE_ACCESS_BASE_URL ++ filename
           , filename := filename },
       [Event.httpPost UPLOAD_ENDPOINT filename])
    else
      (.error { kind := .workbookError
              , msg := "Failed to upload file: " ++
                  ("Failed to upload file: " ++ env.uploadText)
              , cause := none },
       [Event.httpPost UPLOAD_ENDPOINT filename])
  else
    (.error { kind := .workbookError
            , msg := "Failed to upload file: " ++
                ("File not found: " ++ filepath)
            , cause := none },
     [])

/-- `download_file_from_url` (workbook.py:54–78): on transport success the
body is streamed to `save_path` (the file comes to exist); any exception is
wrapped as `WorkbookError("Failed to download file: " ++ str(e))`. -/
def download_file_from_url (env : Env) (url : String) (save_path : String)
    (fs : FS) : Except Exc String × FS × List Event :=
  match env.download with
  | .ok _ => (.ok save_path, fsCreate fs save_path, [Event.download url save_path])
  | .error d =>
      (.error { kind := .workbookError
              , msg := "Failed to download file: " ++ d
              , cause := none },
       fs, [Event.download url save_path])

/-- `operation_params` as received: either already a dict, or a string. -/
inductive ParamsInput where
  | dict (d : Params)
  | str (s : String)

/-- `temp_filename = f"temp_excel_{uuid.uuid4()}.xlsx"` (server.py:498). -/
def temp_filename (env : Env) : String := "temp_excel_" ++ env.uuid ++ ".xlsx"

/-- `temp_filepath = os.path.join(temp_dir, temp_filename)` (server.py:499). -/
def temp_filepath (env : Env) : String := osPathJoin env.tempDir (temp_filename env)

/-- `processed_filepath` (server.py:507–509): working directory joined with
`"processed_" ++ os.path.basename(url.split('/')[-1])`. -/
def processed_filepath (env : Env) (url : String) : String :=
  osPathJoin env.excelFilesPath
    ("processed_" ++ osPathBasename (urlLastSegment url))

/-- The `isinstance(operation_params, str)` normalization (server.py:518–525):
a dict passes through; a string goes through `json.loads`, and a decode
failure raises `ValueError("Invalid JSON format in operation_params")` —
note the message is a fixed literal (the f-string has no placeholder). -/
def normalizeParams (env : Env) (operation_params : ParamsInput) :
    Except Exc Value :=
  match operation_params with
  | .dict d => .ok (Value.obj d)
  | .str s =>
      match env.jsonLoads s with
      | some v => .ok v
      | none =>
          .error { kind := .valueError
                 , msg := "Invalid JSON format in operation_params"
                 , cause := none }

/-- `{k: v for k, v in operation_params.items() if k != "filepath"}`. -/
def stripFilepath (d : Params) : Params := d.filter (fun kv => kv.1 ≠ "filepath")

/-- `operation_params.items()`: succeeds on a dict, raises `AttributeError`
on any other decoded value. -/
def asDict (v : Value) : Except Exc Params :=
  match v with
  | .obj d => .ok d
  | _ => .error { kind := .attributeError
                , msg := "object has no attribute: items"
                , cause := none }

/-- The dispatch chain (server.py:527–546): five exact string comparisons in
source order, each stripping any `filepath` key and calling the matching tool
wrapper on the processed path; the final `else` raises
`ValueError(f"Unsupported operation: {operation}")`. -/
def dispatchOp (env : Env) (operation : String) (processedPath : String)
    (pv : Value) : Except Exc String × List Event :=
  if operation = "format_range" then
    match asDict pv with
    | .error e => (.error e, [])
    | .ok d =>
        let params := stripFilepath d
        (format_range env processedPath params,
         [Event.invoke "format_range" processedPath params])
  else if operation = "apply_formula" then
    match asDict pv with
    | .error e => (.error e, [])
    | .ok d =>
        let params := stripFilepath d
        (apply_formula env processedPath params,
         [Event.invoke "apply_formula" processedPath params])
  else if operation = "write_data_to_excel" then
    match asDict pv with
    | .error e => (.error e, [])
    | .ok d =>
        let params := stripFilepath d
        (write_data_to_excel env processedPath params,
         [Event.invoke "write_data_to_excel" processedPath params])
  else if operation = "create_chart" then
    match asDict pv with
    | .error e => (.error e, [])
    | .ok d =>
        let params := stripFilepath d
        (create_chart env processedPath params,
         [Event.invoke "create_chart" processedPath params])
  else if operation = "create_pivot_table" then
    match asDict pv with
    | .error e => (.error e, [])
    | .ok d =>
        let params := stripFilepath d
        (create_pivot_table env processedPath params,
         [Event.invoke "create_pivot_table" processedPath params])
  else
    (.error { kind := .valueError
            , msg := "Unsupported operation: " ++ operation
            , cause := none },
     [])

/-- The body of the `try` block of `process_excel_from_url`
(server.py:493–555): generate the temp path, download, stage the processed
copy, normalize parameters, dispatch, upload, remove the temp file, compose
the response string.  Errors abort the remaining steps with the state and
trace accumulated so far; no cleanup happens on an error path. -/
def processInner (env : Env) (fs : FS) (url : String) (operation : String)
    (operation_params : ParamsInput) : Except Exc String × FS × List Event :=
  let tempPath := temp_filepath env
  match download_file_from_url env url tempPath fs with
  | (.error e, fs1, ev1) => (.error e, fs1, ev1)
  | (.ok _, fs1, ev1) =>
    let processedPath := processed_filepath env url
    if env.copyOk then
      let fs2 := fsCreate fs1 processedPath
      let ev2 := ev1 ++ [Event.copyFile tempPath processedPath]
      match normalizeParams env operation_params with
      | .error e => (.error e, fs2, ev2)
      | .ok pv =>
        match dispatchOp env operation processedPath pv with
        | (.error e, ev3) => (.error e, fs2, ev2 ++ ev3)
        | (.ok result_message, ev3) =>
          match upload_file_to_server env fs2 processedPath with
          | (.error e, ev4) => (.error e, fs2, ev2 ++ ev3 ++ ev4)
          | (.ok upload_result, ev4) =>
            let fs3 := fsRemove fs2 tempPath
            (.ok ("Operation '" ++ operation ++
                  "' completed successfully. Processed file available at: " ++
                  upload_result.file_url ++
                  "\nOperation result: " ++ result_message),
             fs3, ev2 ++ ev3 ++ ev4 ++ [Event.removeFile tempPath])
    else
      (.error { kind := .osError, msg := env.copyErrMsg, cause := none },
       fs1, ev1 ++ [Event.copyFile tempPath processedPath])

/-- `process_excel_from_url` (server.py:481–558): the whole body runs under a
single `try`; any exception is caught once at the top, and a fresh
`WorkbookError(f"Failed to process Excel from URL: {str(e)}")` is raised
(plain `raise`, no `from e`, so no structured cause is attached). -/
def process_excel_from_url (env : Env) (fs : FS) (url : String)
    (operation : String) (operation_params : ParamsInput) :
    Except Exc String × FS × List Event :=
  match processInner env fs url operation operation_params with
  | (.ok s, fs1, ev) => (.ok s, fs1, ev)
  | (.error e, fs1, ev) =>
      (.error { kind := .workbookError
              , msg := "Failed to process Excel from URL: " ++ e.msg
              , cause := none },
       fs1, ev)

/-! ### Helper lemmas about the filesystem model -/

lemma bool_eq_of_iff {a b : Bool} (h : a = true ↔ b = true) : a = b := by
  cases a <;> cases b <;> simp_all

lemma fsExists_iff (fs : FS) (p : String) : fsExists fs p = true ↔ p ∈ fs := by
  simp [fsExists, List.contains, List.elem_iff]

lemma fsExists_fsCreate_self (fs : FS) (p : String) :
    fsExists (fsCreate fs p) p = true := by
  rw [fsExists_iff]
  unfold fsCreate
  split
  · exact (fsExists_iff fs p).mp (by assumption)
  · exact List.mem_cons_self p fs

lemma fsExists_fsCreate_mono (fs : FS) (p q : String)
    (h : fsExists fs q = true) : fsExists (fsCreate fs p) q = true := by
  rw [fsExists_iff] at h ⊢
  unfold fsCreate
  split
  · exact h
  · exact List.mem_cons_of_mem p h

lemma fsExists_fsRemove_self (fs : FS) (p : String) :
    fsExists (fsRemove fs p) p = false := by
  rw [Bool.eq_false_iff]
  intro h
  rcases List.mem_filter.mp ((fsExists_iff _ _).mp h) with ⟨_, hf⟩
  simp [bne] at hf

lemma fsExists_fsRemove_ne (fs : FS) {p q : String} (h : q ≠ p) :
    fsExists (fsRemove fs p) q = fsExists fs q := by
  apply bool_eq_of_iff
  rw [fsExists_iff, fsExists_iff]
  unfold fsRemove
  rw [List.mem_filter]
  simp [bne, h]

/-! ### Helper lemmas about the orchestration pipeline -/

/-- Partial evaluation of the `try`-block body once the download and the
staging copy have succeeded. -/
lemma processInner_stage (env : Env) (fs : FS) (url op : String)
    (p : ParamsInput) (hdl : env.download = Except.ok ())
    (hcp : env.copyOk = true) :
    processInner env fs url op p =
      (match normalizeParams env p with
       | .error e =>
           (.error e, fsCreate (fsCreate fs (temp_filepath env)) (processed_filepath env url),
            [Event.download url (temp_filepath env),
             Event.copyFile (temp_filepath env) (processed_filepath env url)])
       | .ok pv =>
         match dispatchOp env op (processed_filepath env url) pv with
         | (.error e, ev3) =>
             (.error e, fsCreate (fsCreate fs (temp_filepath env)) (processed_filepath env url),
              [Event.download url (temp_filepath env),
               Event.copyFile (temp_filepath env) (processed_filepath env url)] ++ ev3)
         | (.ok m, ev3) =>
           match upload_file_to_server env
               (fsCreate (fsCreate fs (temp_filepath env)) (processed_filepath env url))
               (processed_filepath env url) with
           | (.error e, ev4) =>
               (.error e, fsCreate (fsCreate fs (temp_filepath env)) (processed_filepath env url),
                [Event.download url (temp_filepath env),
                 Event.copyFile (temp_filepath env) (processed_filepath env url)] ++ ev3 ++ ev4)
           | (.ok ur, ev4) =>
               (.ok ("Operation '" ++ op ++
                     "' completed successfully. Processed file available at: " ++
                     ur.file_url ++ "\nOperation result: " ++ m),
                fsRemove (fsCreate (fsCreate fs (temp_filepath env)) (processed_filepath env url))
                  (temp_filepath env),
                [Event.download url (temp_filepath env),
                 Event.copyFile (temp_filepath env) (processed_filepath env url)] ++ ev3 ++ ev4 ++
                [Event.removeFile (temp_filepath env)])) := by
  unfold processInner download_file_from_url
  rw [hdl, hcp]
  rfl

/-- The five supported operation names, in dispatch order. -/
def supportedOps : List String :=
  ["format_range", "apply_formula", "write_data_to_excel", "create_chart",
   "create_pivot_table"]

lemma dispatchOp_events_of_mem (env : Env) (op path : String) (d : Params)
    (hop : op ∈ supportedOps) :
    (dispatchOp env op path (Value.obj d)).2
      = [Event.invoke op path (stripFilepath d)] := by
  fin_cases hop <;> rfl

lemma dispatchOp_unsupported (env : Env) (op path : String) (pv : Value)
    (hop : op ∉ supportedOps) :
    dispatchOp env op path pv =
      (.error { kind := .valueError
              , msg := "Unsupported operation: " ++ op
              , cause := none }, []) := by
  simp only [supportedOps, List.mem_cons, List.not_mem_nil, or_false,
    not_or] at hop
  obtain ⟨h1, h2, h3, h4, h5⟩ := hop
  unfold dispatchOp
  simp [h1, h2, h3, h4, h5]

lemma dispatchOp_no_upload (env : Env) (op path : String) (pv : Value) :
    ((dispatchOp env op path pv).2).filter Event.isUpload = [] := by
  unfold dispatchOp
  repeat' split
  all_goals rfl

lemma process_events_eq (env : Env) (fs : FS) (url op : String)
    (p : ParamsInput) :
    (process_excel_from_url env fs url op p).2.2
      = (processInner env fs url op p).2.2 := by
  unfold process_excel_from_url
  rcases h : processInner env fs url op p with ⟨r, fs1, ev⟩
  cases r <;> rfl

/-- Full characterization of a run with dict parameters once download and the
staging copy succeed, by cases on the dispatch result and the upload status. -/
lemma process_dict_cases (env : Env) (fs : FS) (url op : String) (d : Params)
    (hdl : env.download = Except.ok ()) (hcp : env.copyOk = true) :
    process_excel_from_url env fs url op (.dict d) =
      (match dispatchOp env op (processed_filepath env url) (Value.obj d) with
       | (.error e, ev3) =>
           (.error { kind := .workbookError
                   , msg := "Failed to process Excel from URL: " ++ e.msg
                   , cause := none },
            fsCreate (fsCreate fs (temp_filepath env)) (processed_filepath env url),
            [Event.download url (temp_filepath env),
             Event.copyFile (temp_filepath env) (processed_filepath env url)] ++ ev3)
       | (.ok m, ev3) =>
           if env.uploadStatus = 200 then
             (.ok ("Operation '" ++ op ++
                   "' completed successfully. Processed file available at: " ++
                   (FILE_ACCESS_BASE_URL ++ osPathBasename (processed_filepath env url)) ++
                   "\nOperation result: " ++ m),
              fsRemove
                (fsCreate (fsCreate fs (temp_filepath env)) (processed_filepath env url))
                (temp_filepath env),
              [Event.download url (temp_filepath env),
               Event.copyFile (temp_filepath env) (processed_filepath env url)] ++ ev3 ++
              [Event.httpPost UPLOAD_ENDPOINT (osPathBasename (processed_filepath env url)),
               Event.removeFile (temp_filepath env)])
           else
             (.error { kind := .workbookError
                     , msg := "Failed to process Excel from URL: " ++
                         ("Failed to upload file: " ++
                          ("Failed to upload file: " ++ env.uploadText))
                     , cause := none },
              fsCreate (fsCreate fs (temp_filepath env)) (processed_filepath env url),
              [Event.download url (temp_filepath env),
               Event.copyFile (temp_filepath env) (processed_filepath env url)] ++ ev3 ++
              [Event.httpPost UPLOAD_ENDPOINT (osPathBasename (processed_filepath env url))])) := by
  unfold process_excel_from_url
  rw [processInner_stage env fs url op _ hdl hcp]
  simp only [normalizeParams]
  rcases hD : dispatchOp env op (processed_filepath env url) (Value.obj d)
    with ⟨r, ev3⟩
  cases r with
  | error e => rfl
  | ok m =>
      by_cases hs : env.uploadStatus = 200 <;>
        simp [upload_file_to_server, fsExists_fsCreate_self, hs,
          List.append_assoc]

/-! ### Concrete environments for witnesses and counterexamples -/

/-- An environment in which every collaborator succeeds: downloads work, the
copy works, the spreadsheet library succeeds, the upload returns 200, and
`json.loads` accepts exactly one mapping-valued payload. -/
def happyEnv : Env := {
  excelFilesPath := "./excel_files"
  tempDir := "/tmp"
  uuid := "1234"
  jsonLoads := fun s =>
    if s = "\x7b\"sheet_name\": \"Sheet1\"\x7d" then
      some (Value.obj [("sheet_name", Value.str "Sheet1")])
    else none
  download := Except.ok ()
  copyOk := true
  copyErrMsg := "copy failed"
  validateFormulaImpl := fun _ _ => .ok none
  applyFormulaImpl := fun _ _ => .ok "Formula applied"
  formatRangeImpl := fun _ _ => .ok ()
  writeDataImpl := fun _ _ => .ok "Data written"
  createChartImpl := fun _ _ => .ok "Chart created"
  createPivotImpl := fun _ _ => .ok "Pivot created"
  uploadStatus := 200
  uploadText := "" }

/-- Like `happyEnv`, but the underlying formula operation raises
`ValidationError("bad formula")` — a domain-specific error. -/
def domainFailEnv : Env :=
  { happyEnv with
    applyFormulaImpl := fun _ _ =>
      .error { kind := .validationError, msg := "bad formula", cause := none } }

/-- Like `happyEnv`, but the underlying formula operation raises
`WorkbookError("corrupt file")`, which the `apply_formula` wrapper does not
catch (its handlers cover only `ValidationError` and `CalculationError`). -/
def raiseEnv : Env :=
  { happyEnv with
    applyFormulaImpl := fun _ _ =>
      .error { kind := .workbookError, msg := "corrupt file", cause := none } }

/-- Like `happyEnv`, but the upload endpoint answers 500 with a body. -/
def failUploadEnv : Env :=
  { happyEnv with uploadStatus := 500, uploadText := "server on fire" }

/-! ### Claim theorems -/

/-- C2: for every supported operation name and a well-formed
`operation_params` mapping, `process_excel_from_url` invokes exactly the
operation matching that name, passing the processed-file path as the path
argument and the normalized params minus any `filepath` key as keyword
parameters; no other operation is invoked. -/
theorem dispatch_invokes_matching_op (env : Env) (fs : FS) (url op : String)
    (d : Params) (hdl : env.download = Except.ok ())
    (hcp : env.copyOk = true) (hop : op ∈ supportedOps) :
    ((process_excel_from_url env fs url op (.dict d)).2.2).filter Event.isInvoke
      = [Event.invoke op (processed_filepath env url) (stripFilepath d)] := by
  rw [process_dict_cases env fs url op d hdl hcp]
  rcases hD : dispatchOp env op (processed_filepath env url) (Value.obj d)
    with ⟨r, ev3⟩
  have hev : ev3 = [Event.invoke op (processed_filepath env url) (stripFilepath d)] := by
    have h2 := dispatchOp_events_of_mem env op (processed_filepath env url) d hop
    rw [hD] at h2
    exact h2
  subst hev
  cases r with
  | error e => simp [Event.isInvoke]
  | ok m =>
      by_cases hs : env.uploadStatus = 200 <;> simp [hs, Event.isInvoke]

/-- C2 witness: a concrete `apply_formula` run whose trace has exactly the
matching invocation, with the `filepath` entry stripped from the params. -/
theorem dispatch_invokes_matching_op_witness :
    happyEnv.download = Except.ok () ∧ happyEnv.copyOk = true
  ∧ "apply_formula" ∈ supportedOps
  ∧ ((process_excel_from_url happyEnv [] "http://x/test.xlsx" "apply_formula"
        (.dict [("filepath", Value.str "evil.xlsx"), ("cell", Value.str "B2")])).2.2).filter
        Event.isInvoke
      = [Event.invoke "apply_formula" "./excel_files/processed_test.xlsx"
          [("cell", Value.str "B2")]] :=
  ⟨rfl, rfl, by decide,
   dispatch_invokes_matching_op happyEnv [] "http://x/test.xlsx" "apply_formula"
     [("filepath", Value.str "evil.xlsx"), ("cell", Value.str "B2")]
     rfl rfl (by decide)⟩

/-- C3: for every operation name outside the five supported ones (exact
matching, no partial or case-insensitive matches), the orchestrator fails
with an error whose message contains `Unsupported operation: <name>`, and the
upload step is never performed. -/
theorem unsupported_operation_fails_before_upload (env : Env) (fs : FS)
    (url op : String) (d : Params)
    (hdl : env.download = Except.ok ()) (hcp : env.copyOk = true)
    (hop : op ∉ supportedOps) :
    (process_excel_from_url env fs url op (.dict d)).1
      = .error { kind := .workbookError
               , msg := "Failed to process Excel from URL: " ++
                   ("Unsupported operation: " ++ op)
               , cause := none }
  ∧ ((process_excel_from_url env fs url op (.dict d)).2.2).filter
      Event.isUpload = [] := by
  rw [process_dict_cases env fs url op d hdl hcp,
      dispatchOp_unsupported env op _ _ hop]
  exact ⟨rfl, by simp [Event.isUpload]⟩

/-- C3 witness: the exact-match requirement in action — both an unrelated
name and a case-variant of a supported name are rejected without upload. -/
theorem unsupported_operation_fails_before_upload_witness :
    happyEnv.download = Except.ok () ∧ happyEnv.copyOk = true
  ∧ "delete_everything" ∉ supportedOps ∧ "Apply_Formula" ∉ supportedOps
  ∧ ((process_excel_from_url happyEnv [] "http://x/test.xlsx"
        "delete_everything" (.dict [])).1
       = .error { kind := .workbookError
                , msg := "Failed to process Excel from URL: " ++
                    ("Unsupported operation: " ++ "delete_everything")
                , cause := none }
     ∧ ((process_excel_from_url happyEnv [] "http://x/test.xlsx"
          "delete_everything" (.dict [])).2.2).filter Event.isUpload = [])
  ∧ ((process_excel_from_url happyEnv [] "http://x/test.xlsx"
        "Apply_Formula" (.dict [])).1
       = .error { kind := .workbookError
                , msg := "Failed to process Excel from URL: " ++
                    ("Unsupported operation: " ++ "Apply_Formula")
                , cause := none }
     ∧ ((process_excel_from_url happyEnv [] "http://x/test.xlsx"
          "Apply_Formula" (.dict [])).2.2).filter Event.isUpload = []) :=
  ⟨rfl, rfl, by decide, by decide,
   unsupported_operation_fails_before_upload happyEnv [] "http://x/test.xlsx"
     "delete_everything" [] rfl rfl (by decide),
   unsupported_operation_fails_before_upload happyEnv [] "http://x/test.xlsx"
     "Apply_Formula" [] rfl rfl (by decide)⟩

/-- C1 counterexample: the underlying operation raises a domain-specific
error (`ValidationError("bad formula")`), yet that failure does not propagate
out of the dispatch step — the dispatched tool wrapper absorbs it into an
`"Error: ..."` string, the orchestrator proceeds to upload, and the whole run
reports success. -/
theorem domain_error_absorbed_cex :
    domainFailEnv.applyFormulaImpl
        (get_excel_path domainFailEnv.excelFilesPath
          (processed_filepath domainFailEnv "http://x/test.xlsx")) []
      = .error { kind := .validationError, msg := "bad formula", cause := none }
  ∧ (process_excel_from_url domainFailEnv [] "http://x/test.xlsx"
       "apply_formula" (.dict [])).1
      = .ok "Operation 'apply_formula' completed successfully. Processed file available at: http://localhost:3001/files/processed_test.xlsx\nOperation result: Error: bad formula"
  ∧ ((process_excel_from_url domainFailEnv [] "http://x/test.xlsx"
        "apply_formula" (.dict [])).2.2).filter Event.isUpload
      = [Event.httpPost UPLOAD_ENDPOINT "processed_test.xlsx"] :=
  ⟨rfl, rfl, rfl⟩

/-- C1 (amended): a failure actually RAISED by the dispatched callable
propagates unchanged out of the dispatch step — the orchestrator does not
absorb it before the upload step (no upload happens, and the error reaches
the top-level handler with its message intact).  However, the dispatched
callables are the direct tool wrappers, which catch their matched domain
errors and return an `"Error: <detail>"` string instead of raising, so those
domain failures do not propagate (second conjunct, shown for
`apply_formula`). -/
theorem dispatch_raise_propagates_unwrapped :
    (∀ (env : Env) (fs : FS) (url op : String) (d : Params) (e : Exc)
       (ev3 : List Event),
       env.download = Except.ok () → env.copyOk = true →
       dispatchOp env op (processed_filepath env url) (Value.obj d)
         = (.error e, ev3) →
       (process_excel_from_url env fs url op (.dict d)).1
         = .error { kind := .workbookError
                  , msg := "Failed to process Excel from URL: " ++ e.msg
                  , cause := none }
       ∧ ((process_excel_from_url env fs url op (.dict d)).2.2).filter
           Event.isUpload = [])
  ∧ (∀ (env : Env) (path : String) (kwargs : Params) (e : Exc),
       env.validateFormulaImpl (get_excel_path env.excelFilesPath path) kwargs
         = .ok none →
       env.applyFormulaImpl (get_excel_path env.excelFilesPath path) kwargs
         = .error e →
       (e.kind = .validationError ∨ e.kind = .calculationError) →
       apply_formula env path kwargs = .ok ("Error: " ++ e.msg)) := by
  constructor
  · intro env fs url op d e ev3 hdl hcp hD
    have hup : ev3.filter Event.isUpload = [] := by
      have h2 := dispatchOp_no_upload env op (processed_filepath env url)
        (Value.obj d)
      rw [hD] at h2
      exact h2
    rw [process_dict_cases env fs url op d hdl hcp, hD]
    exact ⟨rfl, by simp [Event.isUpload, hup]⟩
  · intro env path kwargs e hv ha hk
    unfold apply_formula
    dsimp only
    rw [hv, ha]
    rcases hk with h | h <;> simp [h]

/-- C1 (amended) witness: with `raiseEnv` the wrapper re-raises the
`WorkbookError` from the library, the orchestration fails with that detail
and performs no upload; with `domainFailEnv` the wrapper turns the
`ValidationError` into an `"Error: ..."` return string. -/
theorem dispatch_raise_propagates_unwrapped_witness :
    ((process_excel_from_url raiseEnv [] "http://x/test.xlsx" "apply_formula"
        (.dict [])).1
       = .error { kind := .workbookError
                , msg := "Failed to process Excel from URL: " ++ "corrupt file"
                , cause := none }
     ∧ ((process_excel_from_url raiseEnv [] "http://x/test.xlsx"
          "apply_formula" (.dict [])).2.2).filter Event.isUpload = [])
  ∧ apply_formula domainFailEnv "f.xlsx" [] = .ok ("Error: " ++ "bad formula") :=
  ⟨dispatch_raise_propagates_unwrapped.1 raiseEnv [] "http://x/test.xlsx"
     "apply_formula" []
     { kind := .workbookError, msg := "corrupt file", cause := none }
     [Event.invoke "apply_formula"
       (processed_filepath raiseEnv "http://x/test.xlsx") []]
     rfl rfl rfl,
   dispatch_raise_propagates_unwrapped.2 domainFailEnv "f.xlsx" []
     { kind := .validationError, msg := "bad formula", cause := none }
     rfl rfl (Or.inl rfl)⟩

/-- C4 counterexample: on an invalid JSON payload the raised error's message
is the fixed literal `Invalid JSON format in operation_params` — it does not
identify the invalid payload: two different garbage payloads produce the very
same message, which does not contain either payload (the payload is only
logged). -/
theorem invalid_json_message_constant_cex :
    happyEnv.jsonLoads "@@not-json@@" = none
  ∧ (process_excel_from_url happyEnv [] "http://x/test.xlsx" "apply_formula"
       (.str "@@not-json@@")).1
      = .error { kind := .workbookError
               , msg := "Failed to process Excel from URL: Invalid JSON format in operation_params"
               , cause := none }
  ∧ (process_excel_from_url happyEnv [] "http://x/test.xlsx" "apply_formula"
       (.str "%%other-garbage%%")).1
      = (process_excel_from_url happyEnv [] "http://x/test.xlsx" "apply_formula"
       (.str "@@not-json@@")).1
  ∧ strContains
      "Failed to process Excel from URL: Invalid JSON format in operation_params"
      "@@not-json@@" = false :=
  ⟨rfl, rfl, rfl, rfl⟩

/-- C4 (amended): a string `operation_params` that JSON-decodes to a mapping
makes the whole run behave exactly as if the decoded mapping had been passed
directly; a string that is not valid JSON makes the run fail before any
dispatch occurs (no operation invoked, no upload), with no fallback parsing —
but the error message is the fixed literal
`Invalid JSON format in operation_params` (wrapped at the top level), which
does not include the invalid payload itself. -/
theorem params_normalization_behavior :
    (∀ (env : Env) (fs : FS) (url op s : String) (d : Params),
       env.jsonLoads s = some (Value.obj d) →
       process_excel_from_url env fs url op (.str s)
         = process_excel_from_url env fs url op (.dict d))
  ∧ (∀ (env : Env) (fs : FS) (url op s : String),
       env.download = Except.ok () → env.copyOk = true →
       env.jsonLoads s = none →
       (process_excel_from_url env fs url op (.str s)).1
         = .error { kind := .workbookError
                  , msg := "Failed to process Excel from URL: " ++
                      "Invalid JSON format in operation_params"
                  , cause := none }
       ∧ ((process_excel_from_url env fs url op (.str s)).2.2).filter
           Event.isInvoke = []
       ∧ ((process_excel_from_url env fs url op (.str s)).2.2).filter
           Event.isUpload = []) := by
  constructor
  · intro env fs url op s d hjs
    have hnp : normalizeParams env (.str s) = normalizeParams env (.dict d) := by
      simp [normalizeParams, hjs]
    unfold process_excel_from_url processInner
    rw [hnp]
  · intro env fs url op s hdl hcp hjs
    have hnp : normalizeParams env (.str s)
        = .error { kind := .valueError
                 , msg := "Invalid JSON format in operation_params"
                 , cause := none } := by
      simp [normalizeParams, hjs]
    unfold process_excel_from_url
    rw [processInner_stage env fs url op _ hdl hcp, hnp]
    exact ⟨rfl, rfl, rfl⟩

/-- C4 (amended) witness: the one payload `happyEnv.jsonLoads` accepts makes
the string run equal to the dict run, and a garbage payload fails before
dispatch with the fixed message. -/
theorem params_normalization_behavior_witness :
    happyEnv.jsonLoads "\x7b\"sheet_name\": \"Sheet1\"\x7d"
      = some (Value.obj [("sheet_name", Value.str "Sheet1")])
  ∧ process_excel_from_url happyEnv [] "http://x/test.xlsx" "apply_formula"
      (.str "\x7b\"sheet_name\": \"Sheet1\"\x7d")
    = process_excel_from_url happyEnv [] "http://x/test.xlsx" "apply_formula"
      (.dict [("sheet_name", Value.str "Sheet1")])
  ∧ ((process_excel_from_url happyEnv [] "http://x/test.xlsx" "apply_formula"
       (.str "@@not-json@@")).1
      = .error { kind := .workbookError
               , msg := "Failed to process Excel from URL: " ++
                   "Invalid JSON format in operation_params"
               , cause := none }
     ∧ ((process_excel_from_url happyEnv [] "http://x/test.xlsx"
          "apply_formula" (.str "@@not-json@@")).2.2).filter Event.isInvoke = []
     ∧ ((process_excel_from_url happyEnv [] "http://x/test.xlsx"
          "apply_formula" (.str "@@not-json@@")).2.2).filter Event.isUpload = []) :=
  ⟨rfl,
   params_normalization_behavior.1 happyEnv [] "http://x/test.xlsx"
     "apply_formula" "\x7b\"sheet_name\": \"Sheet1\"\x7d"
     [("sheet_name", Value.str "Sheet1")] rfl,
   params_normalization_behavior.2 happyEnv [] "http://x/test.xlsx"
     "apply_formula" "@@not-json@@" rfl rfl rfl⟩

/-- C5: after a successful run the temporary file no longer exists at its
generated path and the processed file exists at
`<working_dir>/processed_<basename(url)>`; after a run that fails at the
dispatch stage (download and copy done), the temporary file remains on disk —
no compensating cleanup is performed on that failure path. -/
theorem temp_file_lifecycle (env : Env) (fs : FS) (url op : String)
    (d : Params) (hdl : env.download = Except.ok ())
    (hcp : env.copyOk = true)
    (hne : processed_filepath env url ≠ temp_filepath env) :
    (∀ s, (process_excel_from_url env fs url op (.dict d)).1 = .ok s →
        fsExists (process_excel_from_url env fs url op (.dict d)).2.1
          (temp_filepath env) = false
      ∧ fsExists (process_excel_from_url env fs url op (.dict d)).2.1
          (processed_filepath env url) = true)
  ∧ (∀ (e : Exc) (ev3 : List Event),
       dispatchOp env op (processed_filepath env url) (Value.obj d)
         = (.error e, ev3) →
       fsExists (process_excel_from_url env fs url op (.dict d)).2.1
         (temp_filepath env) = true) := by
  rw [process_dict_cases env fs url op d hdl hcp]
  rcases hD : dispatchOp env op (processed_filepath env url) (Value.obj d)
    with ⟨r, ev3⟩
  constructor
  · intro s hs
    cases r with
    | error e => simp at hs
    | ok m =>
        by_cases hst : env.uploadStatus = 200
        · simp only [hst, if_pos]
          refine ⟨fsExists_fsRemove_self _ _, ?_⟩
          rw [fsExists_fsRemove_ne _ hne]
          exact fsExists_fsCreate_self _ _
        · simp [hst] at hs
  · intro e' ev3' hD'
    injection hD' with h1 h2
    subst h1
    exact fsExists_fsCreate_mono _ _ _ (fsExists_fsCreate_self _ _)

/-- C5 witness: in the healthy environment the temp file is gone and the
processed file present after success; in `raiseEnv` (dispatch raises) the
temp file is still present afterwards. -/
theorem temp_file_lifecycle_witness :
    ((process_excel_from_url happyEnv [] "http://x/test.xlsx" "apply_formula"
        (.dict [])).1
      = .ok "Operation 'apply_formula' completed successfully. Processed file available at: http://localhost:3001/files/processed_test.xlsx\nOperation result: Formula applied")
  ∧ (fsExists (process_excel_from_url happyEnv [] "http://x/test.xlsx"
        "apply_formula" (.dict [])).2.1 (temp_filepath happyEnv) = false
     ∧ fsExists (process_excel_from_url happyEnv [] "http://x/test.xlsx"
        "apply_formula" (.dict [])).2.1
        (processed_filepath happyEnv "http://x/test.xlsx") = true)
  ∧ fsExists (process_excel_from_url raiseEnv [] "http://x/test.xlsx"
      "apply_formula" (.dict [])).2.1 (temp_filepath raiseEnv) = true :=
  ⟨rfl,
   (temp_file_lifecycle happyEnv [] "http://x/test.xlsx" "apply_formula" []
      rfl rfl (by decide)).1 _ rfl,
   (temp_file_lifecycle raiseEnv [] "http://x/test.xlsx" "apply_formula" []
      rfl rfl (by decide)).2
     { kind := .workbookError, msg := "corrupt file", cause := none }
     [Event.invoke "apply_formula"
       (processed_filepath raiseEnv "http://x/test.xlsx") []] rfl⟩

/-- C6: every error raised inside `process_excel_from_url` is caught exactly
once at the top level and re-raised as a `WorkbookError` with the new message
`Failed to process Excel from URL: <original str(e)>`; the original detail
survives only in that message text — no structured cause is attached.
Successful runs pass through unwrapped. -/
theorem top_level_wrap_once (env : Env) (fs : FS) (url op : String)
    (p : ParamsInput) :
    (∀ e, (process_excel_from_url env fs url op p).1 = .error e →
        e.kind = .workbookError ∧ e.cause = none
      ∧ ∃ e0, (processInner env fs url op p).1 = .error e0
            ∧ e.msg = "Failed to process Excel from URL: " ++ e0.msg)
  ∧ (∀ s, (process_excel_from_url env fs url op p).1 = .ok s →
        (processInner env fs url op p).1 = .ok s) := by
  unfold process_excel_from_url
  rcases h : processInner env fs url op p with ⟨r, fs1, ev⟩
  cases r with
  | ok s0 =>
      constructor
      · intro e he
        exact absurd he (by simp)
      · intro s hs
        exact hs
  | error e0 =>
      constructor
      · intro e he
        injection he with he'
        exact he' ▸ ⟨rfl, rfl, e0, rfl, rfl⟩
      · intro s hs
        exact absurd hs (by simp)

/-- C6 witness: the unsupported-operation failure comes out as a
`WorkbookError` with the wrapping prefix, no structured cause, and the inner
`ValueError` message preserved in the text. -/
theorem top_level_wrap_once_witness :
    ((process_excel_from_url happyEnv [] "http://x/test.xlsx" "nope"
        (.dict [])).1
      = .error { kind := .workbookError
               , msg := "Failed to process Excel from URL: Unsupported operation: nope"
               , cause := none })
  ∧ ({ kind := .workbookError
     , msg := "Failed to process Excel from URL: Unsupported operation: nope"
     , cause := none : Exc }.kind = .workbookError
     ∧ ({ kind := .workbookError
        , msg := "Failed to process Excel from URL: Unsupported operation: nope"
        , cause := none : Exc }.cause = none)
     ∧ ∃ e0, (processInner happyEnv [] "http://x/test.xlsx" "nope"
            (.dict [])).1 = .error e0
          ∧ ({ kind := .workbookError
             , msg := "Failed to process Excel from URL: Unsupported operation: nope"
             , cause := none : Exc }.msg
             = "Failed to process Excel from URL: " ++ e0.msg)) :=
  ⟨rfl,
   (top_level_wrap_once happyEnv [] "http://x/test.xlsx" "nope" (.dict [])).1
     _ rfl⟩

lemma upload_ok_inv (env : Env) (fs : FS) (path : String) (ur : UploadResult)
    (ev : List Event) (h : upload_file_to_server env fs path = (.ok ur, ev)) :
    ur = { message := "File uploaded successfully"
         , file_url := FILE_ACCESS_BASE_URL ++ osPathBasename path
         , filename := osPathBasename path } := by
  unfold upload_file_to_server at h
  split at h
  · split at h
    · injection h with h1 h2
      injection h1 with h1
      exact h1.symm
    · exact absurd h (by simp)
  · exact absurd h (by simp)

/-- Inversion of a successful `try`-block run: success forces a successful
normalization, a successful dispatch, a successful upload, and pins the shape
of the returned string. -/
lemma processInner_ok_inv (env : Env) (fs : FS) (url op : String)
    (p : ParamsInput) (s0 : String) (fs1 : FS) (ev : List Event)
    (h : processInner env fs url op p = (.ok s0, fs1, ev)) :
    ∃ m pv ur,
      normalizeParams env p = .ok pv
    ∧ (dispatchOp env op (processed_filepath env url) pv).1 = .ok m
    ∧ (upload_file_to_server env
         (fsCreate (fsCreate fs (temp_filepath env)) (processed_filepath env url))
         (processed_filepath env url)).1 = .ok ur
    ∧ ur.file_url = FILE_ACCESS_BASE_URL ++ osPathBasename (processed_filepath env url)
    ∧ s0 = "Operation '" ++ op ++
           "' completed successfully. Processed file available at: " ++
           ur.file_url ++ "\nOperation result: " ++ m := by
  unfold processInner download_file_from_url at h
  dsimp only at h
  cases hdl : env.download with
  | error d => rw [hdl] at h; simp at h
  | ok u =>
      cases u
      rw [hdl] at h
      dsimp only at h
      by_cases hcp : env.copyOk = true
      · rw [if_pos hcp] at h
        rcases hn : normalizeParams env p with e | pv
        · rw [hn] at h; simp at h
        · rw [hn] at h
          dsimp only at h
          rcases hD : dispatchOp env op (processed_filepath env url) pv
            with ⟨r2, ev3⟩
          rw [hD] at h
          cases r2 with
          | error e => simp at h
          | ok m =>
              dsimp only at h
              rcases hU : upload_file_to_server env
                  (fsCreate (fsCreate fs (temp_filepath env))
                    (processed_filepath env url))
                  (processed_filepath env url) with ⟨r3, ev4⟩
              rw [hU] at h
              cases r3 with
              | error e => simp at h
              | ok ur =>
                  refine ⟨m, pv, ur, rfl, by rw [hD], rfl, ?_, ?_⟩
                  · rw [upload_ok_inv env _ _ ur ev4 hU]
                  · injection h with h1 h2
                    injection h1 with h1
                    exact h1.symm
      · rw [if_neg hcp] at h; simp at h

/-- C7: every success of `process_excel_from_url` returns exactly the string
`Operation '<op>' completed successfully. Processed file available at:
<url>\nOperation result: <message>`, where `<op>` is the requested operation,
`<url>` is the `file_url` of the upload result, and `<message>` is the
dispatched operation's own result message. -/
theorem success_response_format (env : Env) (fs : FS) (url op : String)
    (p : ParamsInput) (s : String)
    (hs : (process_excel_from_url env fs url op p).1 = .ok s) :
    ∃ m pv ur,
      normalizeParams env p = .ok pv
    ∧ (dispatchOp env op (processed_filepath env url) pv).1 = .ok m
    ∧ (upload_file_to_server env
         (fsCreate (fsCreate fs (temp_filepath env)) (processed_filepath env url))
         (processed_filepath env url)).1 = .ok ur
    ∧ ur.file_url = FILE_ACCESS_BASE_URL ++ osPathBasename (processed_filepath env url)
    ∧ s = "Operation '" ++ op ++
          "' completed successfully. Processed file available at: " ++
          ur.file_url ++ "\nOperation result: " ++ m := by
  unfold process_excel_from_url at hs
  rcases hI : processInner env fs url op p with ⟨r, fs1, ev⟩
  rw [hI] at hs
  cases r with
  | error e => simp at hs
  | ok s0 =>
      have hs0 : s0 = s := by injection hs
      subst hs0
      exact processInner_ok_inv env fs url op p s0 fs1 ev hI

/-- C7 witness: the concrete healthy run produces exactly the template
string. -/
theorem success_response_format_witness :
    ((process_excel_from_url happyEnv [] "http://x/test.xlsx" "apply_formula"
        (.dict [("cell", Value.str "B2")])).1
      = .ok "Operation 'apply_formula' completed successfully. Processed file available at: http://localhost:3001/files/processed_test.xlsx\nOperation result: Formula applied")
  ∧ ∃ m pv ur,
      normalizeParams happyEnv (.dict [("cell", Value.str "B2")]) = .ok pv
    ∧ (dispatchOp happyEnv "apply_formula"
        (processed_filepath happyEnv "http://x/test.xlsx") pv).1 = .ok m
    ∧ (upload_file_to_server happyEnv
         (fsCreate (fsCreate [] (temp_filepath happyEnv))
           (processed_filepath happyEnv "http://x/test.xlsx"))
         (processed_filepath happyEnv "http://x/test.xlsx")).1 = .ok ur
    ∧ ur.file_url = FILE_ACCESS_BASE_URL ++
        osPathBasename (processed_filepath happyEnv "http://x/test.xlsx")
    ∧ "Operation 'apply_formula' completed successfully. Processed file available at: http://localhost:3001/files/processed_test.xlsx\nOperation result: Formula applied"
        = "Operation '" ++ "apply_formula" ++
          "' completed successfully. Processed file available at: " ++
          ur.file_url ++ "\nOperation result: " ++ m :=
  ⟨rfl,
   success_response_format happyEnv [] "http://x/test.xlsx" "apply_formula"
     (.dict [("cell", Value.str "B2")]) _ rfl⟩

lemma upload_not_found (env : Env) (fs : FS) (path : String)
    (h : fsExists fs path = false) :
    upload_file_to_server env fs path
      = (.error { kind := .workbookError
                , msg := "Failed to upload file: " ++ ("File not found: " ++ path)
                , cause := none }, []) := by
  unfold upload_file_to_server
  simp [h]

/-- C8: on a non-200 upload response, `upload_file_to_server` raises a
`WorkbookError` whose message contains the response body text (doubly
prefixed by the function's own wrap-on-reraise); that failure surfaces from
the orchestration as a wrapped failure still ending in the body text.  On a
200 response it returns the record whose `file_url` is the fixed file-access
base URL concatenated with the uploaded file's basename, together with that
filename. -/
theorem upload_result_and_failure_surface :
    (∀ (env : Env) (fs : FS) (path : String),
       fsExists fs path = true → env.uploadStatus ≠ 200 →
       upload_file_to_server env fs path
         = (.error { kind := .workbookError
                   , msg := "Failed to upload file: " ++
                       ("Failed to upload file: " ++ env.uploadText)
                   , cause := none },
            [Event.httpPost UPLOAD_ENDPOINT (osPathBasename path)]))
  ∧ (∀ (env : Env) (fs : FS) (path : String),
       fsExists fs path = true → env.uploadStatus = 200 →
       upload_file_to_server env fs path
         = (.ok { message := "File uploaded successfully"
                , file_url := FILE_ACCESS_BASE_URL ++ osPathBasename path
                , filename := osPathBasename path },
            [Event.httpPost UPLOAD_ENDPOINT (osPathBasename path)]))
  ∧ (∀ (env : Env) (fs : FS) (url op : String) (d : Params) (m : String)
       (ev3 : List Event),
       env.download = Except.ok () → env.copyOk = true →
       dispatchOp env op (processed_filepath env url) (Value.obj d)
         = (.ok m, ev3) →
       env.uploadStatus ≠ 200 →
       ∃ pre, (process_excel_from_url env fs url op (.dict d)).1
           = .error { kind := .workbookError
                    , msg := pre ++ env.uploadText
                    , cause := none }) := by
  refine ⟨?_, ?_, ?_⟩
  · intro env fs path hex hst
    unfold upload_file_to_server
    simp [hex, hst]
  · intro env fs path hex hst
    unfold upload_file_to_server
    simp [hex, hst]
  · intro env fs url op d m ev3 hdl hcp hD hst
    rw [process_dict_cases env fs url op d hdl hcp, hD]
    refine ⟨"Failed to process Excel from URL: " ++
      ("Failed to upload file: " ++ "Failed to upload file: "), ?_⟩
    dsimp only
    rw [if_neg hst]
    simp [← String.append_assoc]

/-- C8 witness: a 500 response with body `server on fire` produces the
doubly-wrapped message ending in the body; a 200 response produces the
deterministic URL record; the orchestration surfaces the body text. -/
theorem upload_result_and_failure_surface_witness :
    (fsExists ["f.xlsx"] "f.xlsx" = true ∧ failUploadEnv.uploadStatus ≠ 200
     ∧ upload_file_to_server failUploadEnv ["f.xlsx"] "f.xlsx"
        = (.error { kind := .workbookError
                  , msg := "Failed to upload file: " ++
                      ("Failed to upload file: " ++ "server on fire")
                  , cause := none },
           [Event.httpPost UPLOAD_ENDPOINT "f.xlsx"]))
  ∧ (upload_file_to_server happyEnv ["f.xlsx"] "f.xlsx"
        = (.ok { message := "File uploaded successfully"
               , file_url := FILE_ACCESS_BASE_URL ++ "f.xlsx"
               , filename := "f.xlsx" },
           [Event.httpPost UPLOAD_ENDPOINT "f.xlsx"]))
  ∧ (∃ pre, (process_excel_from_url failUploadEnv [] "http://x/test.xlsx"
        "apply_formula" (.dict [])).1
        = .error { kind := .workbookError
                 , msg := pre ++ failUploadEnv.uploadText
                 , cause := none }) :=
  ⟨⟨rfl, by decide,
    upload_result_and_failure_surface.1 failUploadEnv ["f.xlsx"] "f.xlsx"
      rfl (by decide)⟩,
   upload_result_and_failure_surface.2.1 happyEnv ["f.xlsx"] "f.xlsx" rfl rfl,
   upload_result_and_failure_surface.2.2 failUploadEnv [] "http://x/test.xlsx"
     "apply_formula" [] "Formula applied"
     [Event.invoke "apply_formula"
       (processed_filepath failUploadEnv "http://x/test.xlsx") []]
     rfl rfl rfl (by decide)⟩

/-- C9: path resolution returns an absolute filename unchanged (so an
absolute filepath escapes the configured working directory) and otherwise
joins the filename under the working directory; every one of the five
dispatched tool wrappers resolves its filepath argument only through this
same rule — its behaviour depends on the filepath only via
`get_excel_path`. -/
theorem path_resolution_rule :
    (∀ base f, osPathIsAbs f = true → get_excel_path base f = f)
  ∧ (∀ base f, osPathIsAbs f = false →
       get_excel_path base f = osPathJoin base f)
  ∧ (∀ (env : Env) (f g : String) (kwargs : Params),
       get_excel_path env.excelFilesPath f = get_excel_path env.excelFilesPath g →
         apply_formula env f kwargs = apply_formula env g kwargs
       ∧ format_range env f kwargs = format_range env g kwargs
       ∧ write_data_to_excel env f kwargs = write_data_to_excel env g kwargs
       ∧ create_chart env f kwargs = create_chart env g kwargs
       ∧ create_pivot_table env f kwargs = create_pivot_table env g kwargs) := by
  refine ⟨?_, ?_, ?_⟩
  · intro base f h
    unfold get_excel_path
    simp [h]
  · intro base f h
    unfold get_excel_path
    simp [h]
  · intro env f g kwargs h
    refine ⟨?_, ?_, ?_, ?_, ?_⟩ <;>
      · simp only [apply_formula, format_range, write_data_to_excel,
          create_chart, create_pivot_table]
        rw [h]

/-- C9 witness: an absolute path escapes the working directory unchanged, a
relative one is joined under it, and two filenames resolving to the same full
path make `apply_formula` behave identically. -/
theorem path_resolution_rule_witness :
    osPathIsAbs "/tmp/a.xlsx" = true
  ∧ get_excel_path "./excel_files" "/tmp/a.xlsx" = "/tmp/a.xlsx"
  ∧ osPathIsAbs "rel.xlsx" = false
  ∧ get_excel_path "./excel_files" "rel.xlsx" = osPathJoin "./excel_files" "rel.xlsx"
  ∧ (get_excel_path happyEnv.excelFilesPath "b.xlsx"
       = get_excel_path happyEnv.excelFilesPath "b.xlsx"
     → apply_formula happyEnv "b.xlsx" [] = apply_formula happyEnv "b.xlsx" []) :=
  ⟨rfl,
   path_resolution_rule.1 "./excel_files" "/tmp/a.xlsx" rfl,
   rfl,
   path_resolution_rule.2.1 "./excel_files" "rel.xlsx" rfl,
   fun h => (path_resolution_rule.2.2 happyEnv "b.xlsx" "b.xlsx" [] h).1⟩

/-- C10: for a path that does not exist, `upload_file_to_server` raises a
`WorkbookError` whose message contains `File not found` and the offending
path, and performs no HTTP post; conversely an HTTP post in the trace
implies the existence check passed — the check precedes the post on every
call. -/
theorem upload_missing_file_no_request :
    (∀ (env : Env) (fs : FS) (path : String), fsExists fs path = false →
       upload_file_to_server env fs path
         = (.error { kind := .workbookError
                   , msg := "Failed to upload file: " ++
                       ("File not found: " ++ path)
                   , cause := none }, []))
  ∧ (∀ (env : Env) (fs : FS) (path : String) (ev : Event),
       ev ∈ (upload_file_to_server env fs path).2 → Event.isUpload ev = true →
       fsExists fs path = true) := by
  constructor
  · exact upload_not_found
  · intro env fs path ev hmem _
    by_cases hex : fsExists fs path = true
    · exact hex
    · rw [upload_not_found env fs path (by simpa using hex)] at hmem
      simp at hmem

/-- C10 witness: uploading a non-existent file fails with the
`File not found` message and an empty trace (no network request). -/
theorem upload_missing_file_no_request_witness :
    fsExists [] "ghost.xlsx" = false
  ∧ upload_file_to_server happyEnv [] "ghost.xlsx"
      = (.error { kind := .workbookError
                , msg := "Failed to upload file: " ++
                    ("File not found: " ++ "ghost.xlsx")
                , cause := none }, []) :=
  ⟨rfl, upload_missing_file_no_request.1 happyEnv [] "ghost.xlsx" rfl⟩

end ExcelMCP
